import Mathlib

/-!
# imfile: the text-file input module of rsyslog

A shallow embedding of `plugins/imfile/imfile.c`.

* The module's static data (`pszFileName`, ..., `iFilPtr`, `files`) is the
  record `ModData`; every C function becomes a Lean function that takes the
  static data it touches and returns the updated data.
* Everything outside the file (the stream class, the message class, `stat`,
  `srSleep`, the loggers) is an external collaborator.  A call to one of them
  is appended to the `World`, the chronological list of external calls, and
  its answer is read from an `Env`: for every external function the answer to
  its n-th call.  The theorems quantify over every `Env`.
* `goto finalize_it` inside the `finalize_it` block of `openFile` and the
  `while(1)` of `pollFile` are loops without a bound; their models take fuel.
-/

set_option maxRecDepth 100000

namespace Imfile

/-! ## Result codes and the framework macros -/

/-- Modelled from the spec: `rsyslog.h` is not among the sources.  The result
codes the module names, and `RS_RET_OTHER n` for every further code an
external function may answer.  All of them differ from `RS_RET_OK`.
`DEFiRet` is `rsRetVal iRet = RS_RET_OK`, `RETiRet` is `return iRet`,
`CHKiRet(e)` is `if((iRet = e) != RS_RET_OK) goto finalize_it` and
`ABORT_FINALIZE(c)` is `iRet = c; goto finalize_it`. -/
inductive rsRetVal where
  | RS_RET_OK
  | RS_RET_NO_RUN
  | RS_RET_FILE_NOT_FOUND
  | RS_RET_IO_ERROR
  | RS_RET_EOF
  | RS_RET_OTHER (code : Nat)
  deriving DecidableEq, Repr

open rsRetVal

/-- Why a model function gives no result: the loop bound of the model was
reached, or the C code has no defined behaviour there (a NULL string handed
to `strlen` or to a `%s` of `snprintf`, an index outside `files`). -/
inductive Fault where
  | outOfFuel
  | undefinedBehaviour
  deriving DecidableEq, Repr

/-! ## The data model -/

/-- The `#define MAX_INPUT_FILES 100`. -/
def MAX_INPUT_FILES : Nat := 100

/-- The `struct fileInfo_s`.  A `uchar*` is `none` when NULL, otherwise a text
of one-byte characters, so that `strlen` is `String.length`; `pStrm` is the
handle of the stream object, `none` when NULL. -/
structure fileInfo_t where
  pszFileName : Option String
  pszTag : Option String
  pszStateFile : Option String
  offsLast : Int
  iFacility : Int
  iSeverity : Int
  pStrm : Option Nat
  deriving DecidableEq, Repr

/-- A zero-initialised `fileInfo_t`, the content of every slot of the static
array `files` at load time. -/
def fileInfo_t.zero : fileInfo_t :=
  { pszFileName := none, pszTag := none, pszStateFile := none, offsLast := 0,
    iFacility := 0, iSeverity := 0, pStrm := none }

/-- The module's static data: the six config variables, the cursor `iFilPtr`
and the array `files[MAX_INPUT_FILES]`.  `iFilPtr` is an `int` that starts at 0
and is only ever incremented, so it is a natural number here. -/
structure ModData where
  pszFileName : Option String
  pszFileTag : Option String
  pszStateFile : Option String
  iPollInterval : Int
  iFacility : Int
  iSeverity : Int
  iFilPtr : Nat
  files : Fin MAX_INPUT_FILES → fileInfo_t

/-- The static initialisers of lines 68-77: the three names are NULL,
`iPollInterval = 10`, `iFacility` and `iSeverity` carry no initialiser and are
therefore 0, `iFilPtr = 0`, `files` is zero-filled. -/
def ModData.init : ModData :=
  { pszFileName := none, pszFileTag := none, pszStateFile := none,
    iPollInterval := 10, iFacility := 0, iSeverity := 0,
    iFilPtr := 0, files := fun _ => fileInfo_t.zero }

/-- The registered monitors in registration order: `files[0 .. iFilPtr-1]`. -/
def ModData.monitors (s : ModData) : List fileInfo_t :=
  (List.ofFn s.files).take s.iFilPtr

/-! ## External collaborators -/

/-- The `tOperationsMode` values the module passes. -/
inductive strmMode where
  | STREAMMODE_READ
  | STREAMMODE_WRITE
  deriving DecidableEq, Repr

/-- The `strmType_t` values the module passes. -/
inductive strmType where
  | STREAMTYPE_FILE_SINGLE
  | STREAMTYPE_FILE_MONITOR
  deriving DecidableEq, Repr

/-- The message object as `enqLine` fills it. -/
structure msg_t where
  pszUxTradMsg : String
  pszRawMsg : String
  pszMSG : String
  pszHOSTNAME : String
  pszTAG : Option String
  iFacility : Int
  iSeverity : Int
  bParseHOSTNAME : Int
  tTIMESTAMP : Nat
  deriving DecidableEq, Repr

/-- The external functions the module calls. -/
inductive Fn where
  | logerror | dbgprintf | RUNLOG_VAR | stat
  | strmConstruct | strmSettOperationsMode | strmSetsType | strmSetFName
  | strmSetDir | strmSetiAddtlOpenFlags | strmConstructFinalize
  | objDeserialize | strmSeekCurrOffs | bDeleteOnClose | strmDestruct
  | strmSerialize | strmReadLine | msgConstruct | getCurrTime | submitMsg
  | srSleep
  deriving DecidableEq, Repr

/-- One external call with the arguments the module passed. -/
inductive Call where
  | logerror (text : String)
  | dbgprintf (dir : String) (file : Option String)
  | RUNLOG_VAR (v : Int)
  | stat (path : String)
  | strmConstruct
  | strmSettOperationsMode (h : Nat) (mode : strmMode)
  | strmSetsType (h : Nat) (t : strmType)
  | strmSetFName (h : Nat) (name : String) (len : Nat)
  | strmSetDir (h : Nat) (dir : String) (len : Nat)
  | strmSetiAddtlOpenFlags (h : Nat)
  | strmConstructFinalize (h : Nat)
  | objDeserialize (psSF : Nat)
  | strmSeekCurrOffs (h : Nat)
  | bDeleteOnClose (h : Nat)
  | strmDestruct (h : Nat)
  | strmSerialize (pStrm : Option Nat) (psSF : Nat)
  | strmReadLine (pStrm : Option Nat)
  | msgConstruct
  | getCurrTime
  | submitMsg (m : msg_t)
  | srSleep (sec : Int) (usec : Int)
  deriving DecidableEq, Repr

/-- The function a call invokes. -/
def Call.fn : Call → Fn
  | .logerror _ => .logerror
  | .dbgprintf _ _ => .dbgprintf
  | .RUNLOG_VAR _ => .RUNLOG_VAR
  | .stat _ => .stat
  | .strmConstruct => .strmConstruct
  | .strmSettOperationsMode _ _ => .strmSettOperationsMode
  | .strmSetsType _ _ => .strmSetsType
  | .strmSetFName _ _ _ => .strmSetFName
  | .strmSetDir _ _ _ => .strmSetDir
  | .strmSetiAddtlOpenFlags _ => .strmSetiAddtlOpenFlags
  | .strmConstructFinalize _ => .strmConstructFinalize
  | .objDeserialize _ => .objDeserialize
  | .strmSeekCurrOffs _ => .strmSeekCurrOffs
  | .bDeleteOnClose _ => .bDeleteOnClose
  | .strmDestruct _ => .strmDestruct
  | .strmSerialize _ _ => .strmSerialize
  | .strmReadLine _ => .strmReadLine
  | .msgConstruct => .msgConstruct
  | .getCurrTime => .getCurrTime
  | .submitMsg _ => .submitMsg
  | .srSleep _ _ => .srSleep

/-- The world: the external calls made so far, oldest first. -/
abbrev World := List Call

/-- How many calls of `f` the world has seen. -/
def calls (f : Fn) (w : World) : Nat :=
  w.countP (fun c => decide (c.fn = f))

/-- What `stat` answers: success, `-1` with `errno == ENOENT`, or `-1` with
another `errno`. -/
inductive StatResult where
  | found
  | ENOENT
  | failed
  deriving DecidableEq, Repr

/-- The environment: the answers of the external collaborators.  `ret f n` is
the result code of the n-th call (from 0) of `f`, `obj f n` the object a
constructing call stores through its out-pointer when it returns `RS_RET_OK`,
`line n` the text the n-th `strmReadLine` delivers, `now n` the n-th clock
reading.  `workDir` is what `glblGetWorkDir()` returns, `MAXFNAME` the size of
the buffer `pszSFNam`.  The module is sequential and deterministic, so every
run against real collaborators is the run of the model in the environment
that lists the answers given in that run. -/
structure Env where
  workDir : String
  LocalHostName : String
  MAXFNAME : Nat
  statRes : Nat → StatResult
  ret : Fn → Nat → rsRetVal
  obj : Fn → Nat → Nat
  line : Nat → String
  now : Nat → Nat

/-- An external call that answers a result code: the code comes from the
environment, the call is recorded. -/
def extCall (env : Env) (c : Call) (w : World) : rsRetVal × World :=
  (env.ret c.fn (calls c.fn w), w ++ [c])

/-! ## Configuration handlers -/

/-- The function `resetConfigVariables` (lines 385-411).  `free` has no effect
on the model.  The third block tests `pszStateFile` and then frees and clears
`pszFileTag`, as the source does. -/
def resetConfigVariables (s : ModData) : rsRetVal × ModData :=
  let s1 := if s.pszFileName ≠ none then { s with pszFileName := none } else s
  let s2 := if s1.pszFileTag ≠ none then { s1 with pszFileTag := none } else s1
  let s3 := if s2.pszStateFile ≠ none then { s2 with pszFileTag := none } else s2
  (RS_RET_OK, { s3 with iPollInterval := 10, iFacility := 12, iSeverity := 4 })

/-- The function `addMonitor` (lines 415-437).  `strdup` copies the string, so
the slot receives the value. -/
def addMonitor (s : ModData) (w : World) : rsRetVal × ModData × World :=
  if h : s.iFilPtr < MAX_INPUT_FILES then
    let pThis := s.files ⟨s.iFilPtr, h⟩
    let pThis1 := match s.pszFileName with
      | some n => { pThis with pszFileName := some n }
      | none => pThis
    let pThis2 := match s.pszFileTag with
      | some n => { pThis1 with pszTag := some n }
      | none => pThis1
    let pThis3 := match s.pszStateFile with
      | some n => { pThis2 with pszStateFile := some n }
      | none => pThis2
    let pThis4 := { pThis3 with iSeverity := s.iSeverity, iFacility := s.iFacility, offsLast := 0 }
    (RS_RET_OK,
     { s with iFilPtr := s.iFilPtr + 1, files := Function.update s.files ⟨s.iFilPtr, h⟩ pThis4 },
     w)
  else
    (RS_RET_OK, s, w ++ [Call.logerror "Too many file monitors configured - ignoring this one"])

/-- The entry point `willRun` (lines 281-289). -/
def willRun (s : ModData) (w : World) : rsRetVal × World :=
  if s.iFilPtr = 0 then
    (RS_RET_NO_RUN, w ++ [Call.logerror "No files configured to be monitored"])
  else
    (RS_RET_OK, w)

/-- Modelled from the spec: the config-line handlers of `cfsysline.c` are not
among the sources.  The directives `modInit` registers (lines 452-469): a
`eCmdHdlrGetWord` or `eCmdHdlrInt` directive bound to a variable stores the
parsed value there, `inputrunfilemonitor` calls `addMonitor` and
`resetconfigvariables` calls `resetConfigVariables`. -/
inductive Directive where
  | inputfilename (v : String)
  | inputfiletag (v : String)
  | inputfilestatefile (v : String)
  | inputfileseverity (v : Int)
  | inputfilefacility (v : Int)
  | inputfilepollinterval (v : Int)
  | inputrunfilemonitor
  | resetconfigvariables
  deriving DecidableEq, Repr

/-- Processing one config line. -/
def Directive.apply (d : Directive) (sw : ModData × World) : ModData × World :=
  match d with
  | .inputfilename v => ({ sw.1 with pszFileName := some v }, sw.2)
  | .inputfiletag v => ({ sw.1 with pszFileTag := some v }, sw.2)
  | .inputfilestatefile v => ({ sw.1 with pszStateFile := some v }, sw.2)
  | .inputfileseverity v => ({ sw.1 with iSeverity := v }, sw.2)
  | .inputfilefacility v => ({ sw.1 with iFacility := v }, sw.2)
  | .inputfilepollinterval v => ({ sw.1 with iPollInterval := v }, sw.2)
  | .inputrunfilemonitor => (addMonitor sw.1 sw.2).2
  | .resetconfigvariables => ((resetConfigVariables sw.1).2, sw.2)

/-- Processing a config file: its directives in order. -/
def configure (ds : List Directive) (sw : ModData × World) : ModData × World :=
  ds.foldl (fun acc d => d.apply acc) sw

/-- The module after loading and processing the directives `ds`. -/
def loaded (ds : List Directive) : ModData × World :=
  configure ds (ModData.init, [])

/-! ## Reading and forwarding -/

/-- The object a constructing call (`strmConstruct`, `objDeserialize`) made in
world `w` stores through its out-pointer when it returns `RS_RET_OK`.
Modelled from the spec: `stream.c` and `obj.c` are not among the sources; a
constructor that fails leaves the pointer alone. -/
def newObj (env : Env) (c : Call) (w : World) : Nat :=
  env.obj c.fn (calls c.fn w)

/-- The macro `CHKiRet(e)`: `r` is the outcome of `e`; a result other than
`RS_RET_OK` goes to `finalize_it` with that `iRet`, otherwise control goes on
with the next statement. -/
def CHKiRet {α : Type} (r : rsRetVal × World) (finalize_it : rsRetVal → World → α)
    (next : World → α) : α :=
  if r.1 ≠ RS_RET_OK then finalize_it r.1 r.2 else next r.2

/-- The message `enqLine` builds from the line, the monitor and the clock
reading `t` (lines 97-105). -/
def enqLine_msg (env : Env) (pInfo : fileInfo_t) (cstrLine : String) (t : Nat) : msg_t :=
  { pszUxTradMsg := cstrLine, pszRawMsg := cstrLine, pszMSG := cstrLine,
    pszHOSTNAME := env.LocalHostName, pszTAG := pInfo.pszTag,
    iFacility := pInfo.iFacility, iSeverity := pInfo.iSeverity,
    bParseHOSTNAME := 0, tTIMESTAMP := t }

/-- The function `enqLine` (lines 91-109). -/
def enqLine (env : Env) (pInfo : fileInfo_t) (cstrLine : String) (w : World) : rsRetVal × World :=
  CHKiRet (extCall env Call.msgConstruct w) Prod.mk fun w1 =>
  CHKiRet (extCall env
      (Call.submitMsg (enqLine_msg env pInfo cstrLine (env.now (calls Fn.getCurrTime w1))))
      (w1 ++ [Call.getCurrTime])) Prod.mk fun w2 =>
  (RS_RET_OK, w2)

/-- The name `snprintf` leaves in `pszSFNam` (line 125): at most
`MAXFNAME - 1` characters of `workDir/sf`. -/
def pszSFNam (env : Env) (sf : String) : String :=
  String.mk ((env.workDir ++ "/" ++ sf).data.take (env.MAXFNAME - 1))

/-- The function `openFile` from its start to the label `finalize_it` (lines
118-155), for the state-file name `sf`: the value of `iRet`, of `psSF`, the
monitor and the world on arrival at the label.  `snprintf` returns the
untruncated length. -/
def openFile_restore (env : Env) (sf : String) (pThis : fileInfo_t) (w : World) :
    rsRetVal × Option Nat × fileInfo_t × World :=
  let lenSFNam := (env.workDir ++ "/" ++ sf).length
  let w0 := w ++ [Call.stat (pszSFNam env sf)]
  match env.statRes (calls Fn.stat w) with
  | StatResult.ENOENT => (RS_RET_FILE_NOT_FOUND, none, pThis, w0)
  | StatResult.failed => (RS_RET_IO_ERROR, none, pThis, w0)
  | StatResult.found =>
    let psSF := newObj env Call.strmConstruct w0
    CHKiRet (extCall env Call.strmConstruct w0)
      (fun iRet w1 => (iRet, none, pThis, w1)) fun w1 =>
    let finalize_it := fun (iRet : rsRetVal) (wf : World) => (iRet, some psSF, pThis, wf)
    CHKiRet (extCall env (Call.strmSettOperationsMode psSF strmMode.STREAMMODE_READ) w1)
      finalize_it fun w2 =>
    CHKiRet (extCall env (Call.strmSetsType psSF strmType.STREAMTYPE_FILE_SINGLE) w2)
      finalize_it fun w3 =>
    CHKiRet (extCall env (Call.strmSetFName psSF (pszSFNam env sf) lenSFNam) w3)
      finalize_it fun w4 =>
    CHKiRet (extCall env (Call.strmConstructFinalize psSF) w4) finalize_it fun w5 =>
    CHKiRet (extCall env (Call.objDeserialize psSF) w5) finalize_it fun w6 =>
    let pStrm := newObj env (Call.objDeserialize psSF) w5
    CHKiRet (extCall env (Call.strmSeekCurrOffs pStrm) w6)
      (fun iRet wf => (iRet, some psSF, { pThis with pStrm := some pStrm }, wf)) fun w7 =>
    (RS_RET_OK, some psSF, { pThis with pStrm := some pStrm }, w7 ++ [Call.bDeleteOnClose psSF])

/-- The statement `if(psSF != NULL) strmDestruct(&psSF);` (lines 158-159). -/
def destructSF (psSF : Option Nat) (w : World) : World :=
  match psSF with
  | some p => w ++ [Call.strmDestruct p]
  | none => w

/-- The function `openFile` from the label `finalize_it` on (lines 157-169).
Each `CHKiRet` of the block jumps back to the label, so the block repeats
until its five calls succeed in a row; `fuel` bounds the number of arrivals at
the label.  `strmDestruct` resets `psSF` to NULL. -/
def openFile_finalize (env : Env) :
    Nat → rsRetVal → Option Nat → fileInfo_t → World → Except Fault (rsRetVal × fileInfo_t × World)
  | 0, _, _, _, _ => Except.error Fault.outOfFuel
  | fuel + 1, iRet, psSF, pThis, w =>
    let w0 := destructSF psSF w
    if iRet ≠ RS_RET_OK then
      let pStrm := newObj env Call.strmConstruct w0
      CHKiRet (extCall env Call.strmConstruct w0)
        (fun iRet1 wf => openFile_finalize env fuel iRet1 none pThis wf) fun w1 =>
      let pThis1 := { pThis with pStrm := some pStrm }
      let finalize_it := fun (iRet1 : rsRetVal) (wf : World) =>
        openFile_finalize env fuel iRet1 none pThis1 wf
      CHKiRet (extCall env (Call.strmSettOperationsMode pStrm strmMode.STREAMMODE_READ) w1)
        finalize_it fun w2 =>
      CHKiRet (extCall env (Call.strmSetsType pStrm strmType.STREAMTYPE_FILE_MONITOR) w2)
        finalize_it fun w3 =>
      match pThis1.pszFileName with
      | none => Except.error Fault.undefinedBehaviour
      | some name =>
        CHKiRet (extCall env (Call.strmSetFName pStrm name name.length) w3) finalize_it fun w4 =>
        CHKiRet (extCall env (Call.strmConstructFinalize pStrm) w4) finalize_it fun w5 =>
        Except.ok (RS_RET_OK, pThis1, w5)
    else
      Except.ok (iRet, pThis, w0)

/-- The function `openFile` (lines 115-170). -/
def openFile (env : Env) (fuel : Nat) (pThis : fileInfo_t) (w : World) :
    Except Fault (rsRetVal × fileInfo_t × World) :=
  match pThis.pszStateFile with
  | none => Except.error Fault.undefinedBehaviour
  | some sf =>
    openFile_finalize env fuel (openFile_restore env sf pThis w).1
      (openFile_restore env sf pThis w).2.1 (openFile_restore env sf pThis w).2.2.1
      (openFile_restore env sf pThis w).2.2.2

/-- The `while(1)` of `pollFile` (lines 184-187); `fuel` bounds the number of
iterations. -/
def pollFile_loop (env : Env) : Nat → fileInfo_t → World → Except Fault (rsRetVal × World)
  | 0, _, _ => Except.error Fault.outOfFuel
  | fuel + 1, pThis, w =>
    let finalize_it := fun (iRet : rsRetVal) (wf : World) =>
      (Except.ok (iRet, wf) : Except Fault (rsRetVal × World))
    CHKiRet (extCall env (Call.strmReadLine pThis.pStrm) w) finalize_it fun w1 =>
    CHKiRet (enqLine env pThis (env.line (calls Fn.strmReadLine w)) w1) finalize_it fun w2 =>
    pollFile_loop env fuel pThis w2

/-- The function `pollFile` (lines 174-191). -/
def pollFile (env : Env) (fuel : Nat) (pThis : fileInfo_t) (w : World) :
    Except Fault (rsRetVal × fileInfo_t × World) :=
  match pThis.pStrm with
  | none =>
    match openFile env fuel pThis w with
    | Except.error f => Except.error f
    | Except.ok (iRet, pThis1, w1) =>
      if iRet ≠ RS_RET_OK then Except.ok (iRet, pThis1, w1) else
      match pollFile_loop env fuel pThis1 w1 with
      | Except.error f => Except.error f
      | Except.ok (r, w2) => Except.ok (r, pThis1, w2)
  | some _ =>
    match pollFile_loop env fuel pThis w with
    | Except.error f => Except.error f
    | Except.ok (r, w2) => Except.ok (r, pThis, w2)

/-- The `for(i = 0 ; i < iFilPtr ; ++i) pollFile(&files[i]);` of `runInput`
(lines 251-253) with `todo = iFilPtr - i` iterations left.  The result of
`pollFile` is not looked at. -/
def runInput_for (env : Env) (fuel : Nat) :
    Nat → Nat → (Fin MAX_INPUT_FILES → fileInfo_t) → World →
      Except Fault ((Fin MAX_INPUT_FILES → fileInfo_t) × World)
  | 0, _, files, w => Except.ok (files, w)
  | todo + 1, i, files, w =>
    if h : i < MAX_INPUT_FILES then
      match pollFile env fuel (files ⟨i, h⟩) w with
      | Except.error f => Except.error f
      | Except.ok (_, pThis, w1) =>
        runInput_for env fuel todo (i + 1) (Function.update files ⟨i, h⟩ pThis) w1
    else Except.error Fault.undefinedBehaviour

/-- One iteration of the `while(1)` of `runInput` (lines 247-264): the `for`
loop, `RUNLOG_VAR` and `srSleep(iPollInterval, 10)`. -/
def runInput_pass (env : Env) (fuel : Nat) (s : ModData) (w : World) :
    Except Fault (ModData × World) :=
  match runInput_for env fuel s.iFilPtr 0 s.files w with
  | Except.error f => Except.error f
  | Except.ok (files, w1) =>
    Except.ok ({ s with files := files },
      w1 ++ [Call.RUNLOG_VAR s.iPollInterval, Call.srSleep s.iPollInterval 10])

/-- The entry point `runInput` (lines 241-269) up to the end of its n-th
pass.  The loop has no exit, so there is no result code. -/
def runInput (env : Env) (fuel : Nat) : Nat → ModData → World → Except Fault (ModData × World)
  | 0, s, w => Except.ok (s, w)
  | n + 1, s, w =>
    match runInput_pass env fuel s w with
    | Except.error f => Except.error f
    | Except.ok (s1, w1) => runInput env fuel n s1 w1

/-! ## Shutdown -/

/-- The function `persistStrmState` (lines 298-322). -/
def persistStrmState (env : Env) (pInfo : fileInfo_t) (w : World) : Except Fault (rsRetVal × World) :=
  let finalize_it := fun (iRet : rsRetVal) (wf : World) =>
    (Except.ok (iRet, wf) : Except Fault (rsRetVal × World))
  let w0 := w ++ [Call.dbgprintf env.workDir pInfo.pszStateFile]
  let psSF := newObj env Call.strmConstruct w0
  CHKiRet (extCall env Call.strmConstruct w0) finalize_it fun w1 =>
  CHKiRet (extCall env (Call.strmSetDir psSF env.workDir env.workDir.length) w1)
    finalize_it fun w2 =>
  CHKiRet (extCall env (Call.strmSettOperationsMode psSF strmMode.STREAMMODE_WRITE) w2)
    finalize_it fun w3 =>
  CHKiRet (extCall env (Call.strmSetiAddtlOpenFlags psSF) w3) finalize_it fun w4 =>
  CHKiRet (extCall env (Call.strmSetsType psSF strmType.STREAMTYPE_FILE_SINGLE) w4)
    finalize_it fun w5 =>
  match pInfo.pszStateFile with
  | none => Except.error Fault.undefinedBehaviour
  | some sf =>
    CHKiRet (extCall env (Call.strmSetFName psSF sf sf.length) w5) finalize_it fun w6 =>
    CHKiRet (extCall env (Call.strmConstructFinalize psSF) w6) finalize_it fun w7 =>
    CHKiRet (extCall env (Call.strmSerialize pInfo.pStrm psSF) w7) finalize_it fun w8 =>
    CHKiRet (extCall env (Call.strmDestruct psSF) w8) finalize_it fun w9 =>
    Except.ok (RS_RET_OK, w9)

/-- The `for(i = 0 ; i < iFilPtr ; ++i) persistStrmState(&files[i]);` of
`afterRun` (lines 348-350) with `todo = iFilPtr - i` iterations left.  The
result of `persistStrmState` is not looked at. -/
def afterRun_for (env : Env) (files : Fin MAX_INPUT_FILES → fileInfo_t) :
    Nat → Nat → World → Except Fault World
  | 0, _, w => Except.ok w
  | todo + 1, i, w =>
    if h : i < MAX_INPUT_FILES then
      match persistStrmState env (files ⟨i, h⟩) w with
      | Except.error f => Except.error f
      | Except.ok (_, w1) => afterRun_for env files todo (i + 1) w1
    else Except.error Fault.undefinedBehaviour

/-- The entry point `afterRun` (lines 340-351); `iRet` is never assigned, so
the result code is `RS_RET_OK`. -/
def afterRun (env : Env) (s : ModData) (w : World) : Except Fault (rsRetVal × World) :=
  match afterRun_for env s.files s.iFilPtr 0 w with
  | Except.error f => Except.error f
  | Except.ok w1 => Except.ok (RS_RET_OK, w1)

/-! ## Observations on the world -/

/-- The state-file names `persistStrmState` announced on entry, oldest first. -/
def persistAttempts (w : World) : List (Option String) :=
  w.filterMap (fun c => match c with
    | Call.dbgprintf _ file => some file
    | _ => none)

/-- The messages handed to `submitMsg`, oldest first. -/
def submitted (w : World) : List msg_t :=
  w.filterMap (fun c => match c with
    | Call.submitMsg m => some m
    | _ => none)

/-- The messages `enqLine` builds for `j` consecutive lines of the monitor
`pThis`, the first being the line of `strmReadLine` call `n` stamped with clock
reading `t`. -/
def forwarded (env : Env) (pThis : fileInfo_t) (n t j : Nat) : List msg_t :=
  (List.range j).map (fun i => enqLine_msg env pThis (env.line (n + i)) (env.now (t + i)))

/-- Running `persistStrmState` on each monitor of a list in turn, whatever each
run returns. -/
def persistEach (env : Env) : List fileInfo_t → World → Except Fault World
  | [], w => Except.ok w
  | m :: ms, w =>
    match persistStrmState env m w with
    | Except.error f => Except.error f
    | Except.ok (_, w1) => persistEach env ms w1

/-- Running `pollFile` on the slots of a list in turn, whatever each run
returns; a slot keeps what `pollFile` left in it. -/
def pollEach (env : Env) (fuel : Nat) :
    List (Fin MAX_INPUT_FILES) → (Fin MAX_INPUT_FILES → fileInfo_t) → World →
      Except Fault ((Fin MAX_INPUT_FILES → fileInfo_t) × World)
  | [], files, w => Except.ok (files, w)
  | j :: js, files, w =>
    match pollFile env fuel (files j) w with
    | Except.error f => Except.error f
    | Except.ok (_, pThis, w1) => pollEach env fuel js (Function.update files j pThis) w1

/-- What `pollFile` does on an open monitor whose `strmReadLine` answers a
code other than `RS_RET_OK` at the latest at its `k`-th further call: for some
`j ≤ k` the loop runs `j` full iterations, stops in iteration `j` at the first
code other than `RS_RET_OK` and returns it (with every fuel above `j`); it has
then read `j + 1` times and submitted the messages of the first `j` lines, and
that of line `j` too when it was `submitMsg` that failed. -/
def PollStops (env : Env) (pThis : fileInfo_t) (k : Nat) (w : World) : Prop :=
  ∃ j, j ≤ k ∧ ∃ (r : rsRetVal) (w2 : World),
    (∀ fuel, j < fuel → pollFile_loop env fuel pThis w = Except.ok (r, w2)) ∧
    r ≠ RS_RET_OK ∧
    (∀ i, i < j →
      env.ret Fn.strmReadLine (calls Fn.strmReadLine w + i) = RS_RET_OK ∧
      env.ret Fn.msgConstruct (calls Fn.msgConstruct w + i) = RS_RET_OK ∧
      env.ret Fn.submitMsg (calls Fn.submitMsg w + i) = RS_RET_OK) ∧
    calls Fn.strmReadLine w2 = calls Fn.strmReadLine w + j + 1 ∧
    ((r = env.ret Fn.strmReadLine (calls Fn.strmReadLine w + j) ∧
        submitted w2 = submitted w ++
          forwarded env pThis (calls Fn.strmReadLine w) (calls Fn.getCurrTime w) j) ∨
     (env.ret Fn.strmReadLine (calls Fn.strmReadLine w + j) = RS_RET_OK ∧
        r = env.ret Fn.msgConstruct (calls Fn.msgConstruct w + j) ∧
        submitted w2 = submitted w ++
          forwarded env pThis (calls Fn.strmReadLine w) (calls Fn.getCurrTime w) j) ∨
     (env.ret Fn.strmReadLine (calls Fn.strmReadLine w + j) = RS_RET_OK ∧
        env.ret Fn.msgConstruct (calls Fn.msgConstruct w + j) = RS_RET_OK ∧
        r = env.ret Fn.submitMsg (calls Fn.submitMsg w + j) ∧
        submitted w2 = submitted w ++
          forwarded env pThis (calls Fn.strmReadLine w) (calls Fn.getCurrTime w) (j + 1)))

/-- The slots at and above the cursor are still zero-filled and the cursor is
within the array. -/
def Pristine (s : ModData) : Prop :=
  s.iFilPtr ≤ MAX_INPUT_FILES ∧
    ∀ j : Fin MAX_INPUT_FILES, s.iFilPtr ≤ j.val → s.files j = fileInfo_t.zero

/-! ## A sample configuration and sample environments -/

/-- Two monitors, `/var/log/a` and `/var/log/b`, each with a state file. -/
def sampleConfig : List Directive :=
  [Directive.inputfilename "/var/log/a", Directive.inputfiletag "a:",
   Directive.inputfilestatefile "a.si", Directive.inputrunfilemonitor,
   Directive.inputfilename "/var/log/b", Directive.inputfiletag "b:",
   Directive.inputfilestatefile "b.si", Directive.inputrunfilemonitor]

/-- An environment in which `stat` answers `st` and every call succeeds,
except that the calls of `failing` numbered `nth` answer `RS_RET_IO_ERROR` and
every `strmReadLine` from the third on answers `RS_RET_EOF`. -/
def sampleEnv (st : StatResult) (failing : Fn) (nth : Nat) : Env :=
  { workDir := "/var/spool", LocalHostName := "host", MAXFNAME := 200,
    statRes := fun _ => st,
    ret := fun f n =>
      if f = failing ∧ n = nth then RS_RET_IO_ERROR
      else if f = Fn.strmReadLine ∧ 2 ≤ n then RS_RET_EOF
      else RS_RET_OK,
    obj := fun _ n => n + 1,
    line := fun n => if n = 0 then "first line" else "second line",
    now := fun n => 100 + n }

/-- The first monitor of `sampleConfig`, not yet opened. -/
def sampleMonitor : fileInfo_t :=
  { pszFileName := some "/var/log/a", pszTag := some "a:", pszStateFile := some "a.si",
    offsLast := 0, iFacility := 0, iSeverity := 0, pStrm := none }

/-! ## Theorems: configuration -/

theorem resetConfigVariables_registry (s : ModData) :
    (resetConfigVariables s).2.iFilPtr = s.iFilPtr ∧
      (resetConfigVariables s).2.files = s.files := by
  unfold resetConfigVariables
  constructor <;> (simp only []; split_ifs <;> rfl)

theorem addMonitor_iFilPtr (s : ModData) (w : World) :
    (addMonitor s w).2.1.iFilPtr = if s.iFilPtr < MAX_INPUT_FILES then s.iFilPtr + 1 else s.iFilPtr := by
  unfold addMonitor
  split_ifs <;> rfl

theorem addMonitor_files_ne (s : ModData) (w : World) (j : Fin MAX_INPUT_FILES)
    (hj : j.val ≠ s.iFilPtr) : (addMonitor s w).2.1.files j = s.files j := by
  unfold addMonitor
  split_ifs with h
  · have : j ≠ ⟨s.iFilPtr, h⟩ := fun e => hj (congrArg Fin.val e)
    simp [Function.update_noteq this]
  · rfl

theorem addMonitor_files_eq (s : ModData) (w : World) (h : s.iFilPtr < MAX_INPUT_FILES)
    (hz : s.files ⟨s.iFilPtr, h⟩ = fileInfo_t.zero) :
    (addMonitor s w).2.1.files ⟨s.iFilPtr, h⟩ =
      { pszFileName := s.pszFileName, pszTag := s.pszFileTag, pszStateFile := s.pszStateFile,
        offsLast := 0, iFacility := s.iFacility, iSeverity := s.iSeverity, pStrm := none } := by
  unfold addMonitor
  rw [dif_pos h]
  simp only [Function.update_same, hz, fileInfo_t.zero]
  cases s.pszFileName <;> cases s.pszFileTag <;> cases s.pszStateFile <;> rfl

theorem apply_iFilPtr_mono (d : Directive) (sw : ModData × World) :
    sw.1.iFilPtr ≤ (d.apply sw).1.iFilPtr := by
  cases d <;> simp only [Directive.apply, le_refl]
  · rw [addMonitor_iFilPtr]; split_ifs <;> omega
  · rw [(resetConfigVariables_registry sw.1).1]

theorem apply_files_below (d : Directive) (sw : ModData × World) (j : Fin MAX_INPUT_FILES)
    (hj : j.val < sw.1.iFilPtr) : (d.apply sw).1.files j = sw.1.files j := by
  cases d <;> simp only [Directive.apply]
  · exact addMonitor_files_ne _ _ _ (by omega)
  · rw [(resetConfigVariables_registry sw.1).2]

theorem apply_pristine (d : Directive) (sw : ModData × World) (h : Pristine sw.1) :
    Pristine (d.apply sw).1 := by
  obtain ⟨h1, h2⟩ := h
  cases d <;> simp only [Directive.apply] <;> try exact ⟨h1, h2⟩
  · refine ⟨?_, fun j hj => ?_⟩
    · rw [addMonitor_iFilPtr]; split_ifs <;> omega
    · rw [addMonitor_iFilPtr] at hj
      rw [addMonitor_files_ne _ _ _ (by split_ifs at hj <;> omega)]
      exact h2 j (by split_ifs at hj <;> omega)
  · have h := resetConfigVariables_registry sw.1
    exact ⟨by rw [h.1]; exact h1, fun j hj => by rw [h.2]; exact h2 j (by rw [h.1] at hj; exact hj)⟩

theorem configure_pristine (ds : List Directive) (sw : ModData × World) (h : Pristine sw.1) :
    Pristine (configure ds sw).1 := by
  induction ds generalizing sw with
  | nil => exact h
  | cons d ds ih => exact ih _ (apply_pristine d sw h)

theorem loaded_pristine (ds : List Directive) : Pristine (loaded ds).1 :=
  configure_pristine ds _ ⟨Nat.zero_le _, fun _ _ => rfl⟩

theorem configure_files_below (ds : List Directive) (sw : ModData × World)
    (j : Fin MAX_INPUT_FILES) (hj : j.val < sw.1.iFilPtr) :
    j.val < (configure ds sw).1.iFilPtr ∧ (configure ds sw).1.files j = sw.1.files j := by
  induction ds generalizing sw with
  | nil => exact ⟨hj, rfl⟩
  | cons d ds ih =>
    have hm := apply_iFilPtr_mono d sw
    have := ih (d.apply sw) (by omega)
    exact ⟨this.1, this.2.trans (apply_files_below d sw j hj)⟩

theorem monitors_getElem? (s : ModData) (i : Nat) :
    s.monitors[i]? =
      if h : i < s.iFilPtr ∧ i < MAX_INPUT_FILES then some (s.files ⟨i, h.2⟩) else none := by
  unfold ModData.monitors
  rw [List.getElem?_take, List.getElem?_ofFn, List.ofFnNthVal]
  by_cases h1 : i < s.iFilPtr <;> by_cases h2 : i < MAX_INPUT_FILES <;> simp [h1, h2]

theorem monitors_length (s : ModData) (h : s.iFilPtr ≤ MAX_INPUT_FILES) :
    s.monitors.length = s.iFilPtr := by
  unfold ModData.monitors
  rw [List.length_take, List.length_ofFn]
  exact Nat.min_eq_left h

theorem addMonitor_monitors_append (s : ModData) (w : World) (h : s.iFilPtr < MAX_INPUT_FILES) :
    (addMonitor s w).2.1.monitors =
      s.monitors ++ [(addMonitor s w).2.1.files ⟨s.iFilPtr, h⟩] := by
  apply List.ext_getElem?
  intro i
  rw [monitors_getElem?, addMonitor_iFilPtr, if_pos h]
  have hlen := monitors_length s (le_of_lt h)
  rcases Nat.lt_trichotomy i s.iFilPtr with hi | hi | hi
  · rw [List.getElem?_append_left (by omega), monitors_getElem?]
    have h1 : i < s.iFilPtr + 1 ∧ i < MAX_INPUT_FILES := ⟨by omega, by omega⟩
    have h2 : i < s.iFilPtr ∧ i < MAX_INPUT_FILES := ⟨hi, by omega⟩
    rw [dif_pos h1, dif_pos h2, addMonitor_files_ne]
    exact Nat.ne_of_lt hi
  · subst hi
    have h1 : s.iFilPtr < s.iFilPtr + 1 ∧ s.iFilPtr < MAX_INPUT_FILES := ⟨by omega, h⟩
    rw [dif_pos h1, List.getElem?_append_right (by omega), hlen, Nat.sub_self]
    rfl
  · have h1 : ¬ (i < s.iFilPtr + 1 ∧ i < MAX_INPUT_FILES) := by omega
    rw [dif_neg h1, List.getElem?_append_right (by omega)]
    have : i - s.monitors.length ≠ 0 := by omega
    rcases hk : i - s.monitors.length with _ | k
    · omega
    · simp

theorem configure_iFilPtr_ne_zero (ds : List Directive) (sw : ModData × World) :
    (configure ds sw).1.iFilPtr ≠ 0 ↔
      sw.1.iFilPtr ≠ 0 ∨ Directive.inputrunfilemonitor ∈ ds := by
  induction ds generalizing sw with
  | nil => simp [configure]
  | cons d ds ih =>
    have hstep : (configure (d :: ds) sw) = configure ds (d.apply sw) := rfl
    rw [hstep, ih]
    have hm := apply_iFilPtr_mono d sw
    by_cases hd : d = Directive.inputrunfilemonitor
    · subst hd
      have : (Directive.inputrunfilemonitor.apply sw).1.iFilPtr ≠ 0 := by
        simp only [Directive.apply]
        rw [addMonitor_iFilPtr]
        split_ifs with h
        · omega
        · unfold MAX_INPUT_FILES at h; omega
      simp [this]
    · have hkeep : (d.apply sw).1.iFilPtr = sw.1.iFilPtr := by
        cases d <;> first | rfl | exact absurd rfl hd | exact (resetConfigVariables_registry sw.1).1
      rw [hkeep]
      constructor
      · rintro (h | h)
        · exact Or.inl h
        · exact Or.inr (List.mem_cons_of_mem _ h)
      · rintro (h | h)
        · exact Or.inl h
        · rcases List.mem_cons.mp h with h | h
          · exact absurd h.symm hd
          · exact Or.inr h

/-! ## Theorems: the two `for` loops -/

theorem finRange_drop_cons (i : Nat) (h : i < MAX_INPUT_FILES) :
    (List.finRange MAX_INPUT_FILES).drop i =
      ⟨i, h⟩ :: (List.finRange MAX_INPUT_FILES).drop (i + 1) := by
  have hl : i < (List.finRange MAX_INPUT_FILES).length := by
    rw [List.length_finRange]; exact h
  rw [List.drop_eq_getElem_cons hl, List.getElem_finRange]
  rfl

theorem ofFn_drop_cons (files : Fin MAX_INPUT_FILES → fileInfo_t) (i : Nat)
    (h : i < MAX_INPUT_FILES) :
    (List.ofFn files).drop i = files ⟨i, h⟩ :: (List.ofFn files).drop (i + 1) := by
  have hl : i < (List.ofFn files).length := by
    rw [List.length_ofFn]; exact h
  rw [List.drop_eq_getElem_cons hl, List.getElem_ofFn]

theorem afterRun_for_eq_persistEach (env : Env) (files : Fin MAX_INPUT_FILES → fileInfo_t)
    (todo i : Nat) (w : World) (h : i + todo ≤ MAX_INPUT_FILES) :
    afterRun_for env files todo i w =
      persistEach env (((List.ofFn files).drop i).take todo) w := by
  induction todo generalizing i w with
  | zero => rfl
  | succ n ih =>
    have hi : i < MAX_INPUT_FILES := by omega
    rw [ofFn_drop_cons files i hi, List.take_succ_cons]
    simp only [afterRun_for, persistEach, dif_pos hi]
    cases persistStrmState env (files ⟨i, hi⟩) w with
    | error f => rfl
    | ok r => exact ih (i + 1) r.2 (by omega)

theorem runInput_for_eq_pollEach (env : Env) (fuel todo i : Nat)
    (files : Fin MAX_INPUT_FILES → fileInfo_t) (w : World) (h : i + todo ≤ MAX_INPUT_FILES) :
    runInput_for env fuel todo i files w =
      pollEach env fuel (((List.finRange MAX_INPUT_FILES).drop i).take todo) files w := by
  induction todo generalizing i files w with
  | zero => rfl
  | succ n ih =>
    have hi : i < MAX_INPUT_FILES := by omega
    rw [finRange_drop_cons i hi, List.take_succ_cons]
    simp only [runInput_for, pollEach, dif_pos hi]
    cases pollFile env fuel (files ⟨i, hi⟩) w with
    | error f => rfl
    | ok r => exact ih (i + 1) _ r.2.2 (by omega)

theorem persistAttempts_append (w1 w2 : World) :
    persistAttempts (w1 ++ w2) = persistAttempts w1 ++ persistAttempts w2 := by
  simp [persistAttempts, List.filterMap_append]

@[simp] theorem extCall_world (env : Env) (c : Call) (w : World) :
    (extCall env c w).2 = w ++ [c] := rfl

theorem CHKiRet_elim {α : Type} (P : α → Prop) (r : rsRetVal × World)
    (fin : rsRetVal → World → α) (next : World → α)
    (h1 : r.1 ≠ RS_RET_OK → P (fin r.1 r.2)) (h2 : r.1 = RS_RET_OK → P (next r.2)) :
    P (CHKiRet r fin next) := by
  unfold CHKiRet
  split_ifs with h
  · exact h1 h
  · exact h2 (not_not.mp h)

theorem persistStrmState_announces (env : Env) (m : fileInfo_t) (w : World) (sf : String)
    (h : m.pszStateFile = some sf) :
    ∃ r w1, persistStrmState env m w = Except.ok (r, w1) ∧
      persistAttempts w1 = persistAttempts w ++ [some sf] := by
  unfold persistStrmState
  rw [h]
  dsimp only
  let Q : Except Fault (rsRetVal × World) → Prop := fun x =>
    ∃ r w1, x = Except.ok (r, w1) ∧ persistAttempts w1 = persistAttempts w ++ [some sf]
  show Q _
  repeat' (refine CHKiRet_elim Q _ _ _ (fun _ => ?_) (fun _ => ?_))
  all_goals exact ⟨_, _, rfl, by simp [persistAttempts]⟩

theorem persistEach_announces (env : Env) (ms : List fileInfo_t) (w : World)
    (h : ∀ m ∈ ms, m.pszStateFile ≠ none) :
    ∃ w1, persistEach env ms w = Except.ok w1 ∧
      persistAttempts w1 = persistAttempts w ++ ms.map (fun m => m.pszStateFile) := by
  induction ms generalizing w with
  | nil => exact ⟨w, rfl, by simp⟩
  | cons m ms ih =>
    obtain ⟨sf, hsf⟩ := Option.ne_none_iff_exists'.mp (h m (List.mem_cons_self _ _))
    obtain ⟨r, w1, h1, h2⟩ := persistStrmState_announces env m w sf hsf
    obtain ⟨w2, h3, h4⟩ := ih w1 (fun x hx => h x (List.mem_cons_of_mem _ hx))
    refine ⟨w2, ?_, ?_⟩
    · simp only [persistEach, h1]; exact h3
    · rw [h4, h2, List.map_cons, hsf, List.append_assoc]; rfl

/-! ## Theorems: opening a file -/

@[simp] theorem extCall_ret (env : Env) (c : Call) (w : World) :
    (extCall env c w).1 = env.ret c.fn (calls c.fn w) := rfl

theorem calls_snoc (f : Fn) (w : World) (c : Call) :
    calls f (w ++ [c]) = calls f w + if c.fn = f then 1 else 0 := by
  unfold calls
  rw [List.countP_append]
  by_cases h : c.fn = f <;> simp [h]

theorem calls_nil (f : Fn) : calls f [] = 0 := rfl

theorem calls_cons (f : Fn) (c : Call) (cs : World) :
    calls f (c :: cs) = (if c.fn = f then 1 else 0) + calls f cs := by
  unfold calls
  rw [List.countP_cons]
  by_cases h : c.fn = f <;> simp [h, Nat.add_comm]

theorem calls_append (f : Fn) (w1 w2 : World) :
    calls f (w1 ++ w2) = calls f w1 + calls f w2 := by
  unfold calls
  rw [List.countP_append]

theorem CHKiRet_ok {α : Type} (r : rsRetVal × World) (fin : rsRetVal → World → α)
    (next : World → α) (h : r.1 = RS_RET_OK) : CHKiRet r fin next = next r.2 := by
  unfold CHKiRet
  rw [if_neg (not_not.mpr h)]

theorem CHKiRet_fail {α : Type} (r : rsRetVal × World) (fin : rsRetVal → World → α)
    (next : World → α) (h : r.1 ≠ RS_RET_OK) : CHKiRet r fin next = fin r.1 r.2 := by
  unfold CHKiRet
  rw [if_pos h]

theorem openFile_restore_monitor (env : Env) (sf : String) (pThis : fileInfo_t) (w : World)
    (h : Nat) :
    ({ (openFile_restore env sf pThis w).2.2.1 with pStrm := some h } : fileInfo_t) =
      { pThis with pStrm := some h } := by
  unfold openFile_restore
  dsimp only
  cases env.statRes (calls Fn.stat w) <;> dsimp only
  let Q : rsRetVal × Option Nat × fileInfo_t × World → Prop := fun x =>
    ({ x.2.2.1 with pStrm := some h } : fileInfo_t) = { pThis with pStrm := some h }
  show Q _
  repeat' (refine CHKiRet_elim Q _ _ _ (fun _ => ?_) (fun _ => ?_))
  all_goals rfl

theorem CHKiRet_fst_OK_iff {β : Type} (r : rsRetVal × World)
    (fin : rsRetVal → World → rsRetVal × β) (next : World → rsRetVal × β)
    (hfin : ∀ c w, (fin c w).1 = c) :
    (CHKiRet r fin next).1 = RS_RET_OK ↔ r.1 = RS_RET_OK ∧ (next r.2).1 = RS_RET_OK := by
  unfold CHKiRet
  split_ifs with h
  · rw [hfin]; exact ⟨fun h1 => absurd h1 h, fun h1 => h1.1⟩
  · exact ⟨fun h1 => ⟨not_not.mp h, h1⟩, fun h1 => h1.2⟩

theorem openFile_restore_OK_iff (env : Env) (sf : String) (pThis : fileInfo_t) (w : World) :
    (openFile_restore env sf pThis w).1 = RS_RET_OK ↔
      env.statRes (calls Fn.stat w) = StatResult.found ∧
      env.ret Fn.strmConstruct (calls Fn.strmConstruct w) = RS_RET_OK ∧
      env.ret Fn.strmSettOperationsMode (calls Fn.strmSettOperationsMode w) = RS_RET_OK ∧
      env.ret Fn.strmSetsType (calls Fn.strmSetsType w) = RS_RET_OK ∧
      env.ret Fn.strmSetFName (calls Fn.strmSetFName w) = RS_RET_OK ∧
      env.ret Fn.strmConstructFinalize (calls Fn.strmConstructFinalize w) = RS_RET_OK ∧
      env.ret Fn.objDeserialize (calls Fn.objDeserialize w) = RS_RET_OK ∧
      env.ret Fn.strmSeekCurrOffs (calls Fn.strmSeekCurrOffs w) = RS_RET_OK := by
  unfold openFile_restore
  dsimp only
  cases hs : env.statRes (calls Fn.stat w) <;> dsimp only
  · rw [CHKiRet_fst_OK_iff _ _ _ (fun _ _ => rfl), CHKiRet_fst_OK_iff _ _ _ (fun _ _ => rfl),
      CHKiRet_fst_OK_iff _ _ _ (fun _ _ => rfl), CHKiRet_fst_OK_iff _ _ _ (fun _ _ => rfl),
      CHKiRet_fst_OK_iff _ _ _ (fun _ _ => rfl), CHKiRet_fst_OK_iff _ _ _ (fun _ _ => rfl),
      CHKiRet_fst_OK_iff _ _ _ (fun _ _ => rfl)]
    simp only [extCall_ret, extCall_world, calls_snoc, Call.fn, true_and, and_true,
      reduceCtorEq, if_false, Nat.add_zero]
  · exact ⟨fun h => absurd h (by decide), fun h => absurd h.1 (by decide)⟩
  · exact ⟨fun h => absurd h (by decide), fun h => absurd h.1 (by decide)⟩

theorem enqLine_eq (env : Env) (pInfo : fileInfo_t) (l : String) (w : World) :
    enqLine env pInfo l w =
      if env.ret Fn.msgConstruct (calls Fn.msgConstruct w) ≠ RS_RET_OK then
        (env.ret Fn.msgConstruct (calls Fn.msgConstruct w), w ++ [Call.msgConstruct])
      else
        (env.ret Fn.submitMsg (calls Fn.submitMsg w),
          w ++ [Call.msgConstruct, Call.getCurrTime,
            Call.submitMsg (enqLine_msg env pInfo l (env.now (calls Fn.getCurrTime w)))]) := by
  unfold enqLine
  by_cases h1 : env.ret Fn.msgConstruct (calls Fn.msgConstruct w) = RS_RET_OK
  · rw [CHKiRet_ok _ _ _ (by simpa using h1), if_neg (not_not.mpr h1)]
    have hc : calls Fn.submitMsg (w ++ [Call.msgConstruct] ++ [Call.getCurrTime]) =
        calls Fn.submitMsg w := by
      simp [calls_append, calls_cons, calls_nil, Call.fn]
    have ht : calls Fn.getCurrTime (w ++ [Call.msgConstruct]) = calls Fn.getCurrTime w := by
      simp [calls_append, calls_cons, calls_nil, Call.fn]
    unfold CHKiRet
    simp only [extCall_ret, extCall_world, ht, Call.fn, hc, List.append_assoc,
      List.singleton_append]
    rw [List.append_assoc] at hc
    simp only [List.singleton_append] at hc
    rw [hc]
    split_ifs with h2
    · rfl
    · rw [not_not.mp h2]
      rfl
  · rw [CHKiRet_fail _ _ _ (by simpa using h1), if_pos h1]
    rfl

theorem enqLine_extends (env : Env) (pInfo : fileInfo_t) (l : String) (w : World) :
    w <+: (enqLine env pInfo l w).2 := by
  rw [enqLine_eq]
  split_ifs <;> exact List.prefix_append _ _

theorem pollFile_loop_reads_first (env : Env) (fuel : Nat) (pThis : fileInfo_t) (w : World)
    (r : rsRetVal) (w2 : World) (h : pollFile_loop env fuel pThis w = Except.ok (r, w2)) :
    (w ++ [Call.strmReadLine pThis.pStrm]) <+: w2 := by
  induction fuel generalizing w w2 with
  | zero => simp [pollFile_loop] at h
  | succ n ih =>
    rw [pollFile_loop] at h
    by_cases h1 : (extCall env (Call.strmReadLine pThis.pStrm) w).1 = RS_RET_OK
    · rw [CHKiRet_ok _ _ _ h1] at h
      have hext := enqLine_extends env pThis (env.line (calls Fn.strmReadLine w))
        (extCall env (Call.strmReadLine pThis.pStrm) w).2
      by_cases h2 : (enqLine env pThis (env.line (calls Fn.strmReadLine w))
          (extCall env (Call.strmReadLine pThis.pStrm) w).2).1 = RS_RET_OK
      · rw [CHKiRet_ok _ _ _ h2] at h
        exact hext.trans ((List.prefix_append _ _).trans (ih _ _ h))
      · rw [CHKiRet_fail _ _ _ h2] at h
        simp only [Except.ok.injEq, Prod.mk.injEq] at h
        rw [← h.2]
        exact hext
    · rw [CHKiRet_fail _ _ _ h1] at h
      simp only [Except.ok.injEq, Prod.mk.injEq] at h
      rw [← h.2]
      exact List.prefix_refl _

/-! ## Theorems: polling an open file -/

theorem pollFile_loop_succ (env : Env) (fuel : Nat) (pThis : fileInfo_t) (w : World) :
    pollFile_loop env (fuel + 1) pThis w =
      if env.ret Fn.strmReadLine (calls Fn.strmReadLine w) ≠ RS_RET_OK then
        Except.ok (env.ret Fn.strmReadLine (calls Fn.strmReadLine w),
          w ++ [Call.strmReadLine pThis.pStrm])
      else if env.ret Fn.msgConstruct (calls Fn.msgConstruct w) ≠ RS_RET_OK then
        Except.ok (env.ret Fn.msgConstruct (calls Fn.msgConstruct w),
          w ++ [Call.strmReadLine pThis.pStrm, Call.msgConstruct])
      else if env.ret Fn.submitMsg (calls Fn.submitMsg w) ≠ RS_RET_OK then
        Except.ok (env.ret Fn.submitMsg (calls Fn.submitMsg w),
          w ++ [Call.strmReadLine pThis.pStrm, Call.msgConstruct, Call.getCurrTime,
            Call.submitMsg (enqLine_msg env pThis (env.line (calls Fn.strmReadLine w))
              (env.now (calls Fn.getCurrTime w)))])
      else
        pollFile_loop env fuel pThis
          (w ++ [Call.strmReadLine pThis.pStrm, Call.msgConstruct, Call.getCurrTime,
            Call.submitMsg (enqLine_msg env pThis (env.line (calls Fn.strmReadLine w))
              (env.now (calls Fn.getCurrTime w)))]) := by
  rw [pollFile_loop]
  by_cases h1 : env.ret Fn.strmReadLine (calls Fn.strmReadLine w) = RS_RET_OK
  · rw [CHKiRet_ok _ _ _ (by simpa using h1), if_neg (not_not.mpr h1), enqLine_eq]
    have e1 : calls Fn.msgConstruct (extCall env (Call.strmReadLine pThis.pStrm) w).2 =
        calls Fn.msgConstruct w := by
      simp [calls_append, calls_cons, calls_nil, Call.fn]
    have e2 : calls Fn.submitMsg (extCall env (Call.strmReadLine pThis.pStrm) w).2 =
        calls Fn.submitMsg w := by
      simp [calls_append, calls_cons, calls_nil, Call.fn]
    have e3 : calls Fn.getCurrTime (extCall env (Call.strmReadLine pThis.pStrm) w).2 =
        calls Fn.getCurrTime w := by
      simp [calls_append, calls_cons, calls_nil, Call.fn]
    rw [e1, e2, e3]
    by_cases h2 : env.ret Fn.msgConstruct (calls Fn.msgConstruct w) = RS_RET_OK
    · rw [if_neg (not_not.mpr h2), if_neg (not_not.mpr h2)]
      by_cases h3 : env.ret Fn.submitMsg (calls Fn.submitMsg w) = RS_RET_OK
      · rw [CHKiRet_ok _ _ _ h3, if_neg (not_not.mpr h3)]
        simp [List.append_assoc]
      · rw [CHKiRet_fail _ _ _ h3, if_pos h3]
        simp [List.append_assoc]
    · rw [if_pos h2, if_pos h2, CHKiRet_fail _ _ _ h2]
      simp [List.append_assoc]
  · rw [CHKiRet_fail _ _ _ (by simpa using h1), if_pos h1]
    rfl

theorem forwarded_succ (env : Env) (pThis : fileInfo_t) (n t j : Nat) :
    forwarded env pThis n t (j + 1) =
      enqLine_msg env pThis (env.line n) (env.now t) :: forwarded env pThis (n + 1) (t + 1) j := by
  unfold forwarded
  rw [List.range_succ_eq_map, List.map_cons, List.map_map]
  congr 1
  apply List.map_congr_left
  intro i _
  have e1 : n + Nat.succ i = n + 1 + i := by omega
  have e2 : t + Nat.succ i = t + 1 + i := by omega
  simp only [Function.comp, e1, e2]

theorem submitted_append (w1 w2 : World) :
    submitted (w1 ++ w2) = submitted w1 ++ submitted w2 := by
  simp [submitted, List.filterMap_append]

theorem pollFile_loop_stops_at_read (env : Env) (pThis : fileInfo_t) (k : Nat) (w : World)
    (h1 : env.ret Fn.strmReadLine (calls Fn.strmReadLine w) ≠ RS_RET_OK) :
    PollStops env pThis k w := by
  refine ⟨0, Nat.zero_le _, env.ret Fn.strmReadLine (calls Fn.strmReadLine w),
    w ++ [Call.strmReadLine pThis.pStrm], fun fuel hf => ?_, h1,
    fun i hi => absurd hi (Nat.not_lt_zero _), ?_, Or.inl ⟨rfl, ?_⟩⟩
  · obtain ⟨f, rfl⟩ := Nat.exists_eq_succ_of_ne_zero (Nat.pos_iff_ne_zero.mp hf)
    rw [pollFile_loop_succ, if_pos h1]
  · simp [calls_append, calls_cons, calls_nil, Call.fn]
  · simp [submitted_append, submitted, forwarded]

theorem pollFile_loop_stops (env : Env) (pThis : fileInfo_t) (k : Nat) (w : World)
    (hfin : env.ret Fn.strmReadLine (calls Fn.strmReadLine w + k) ≠ RS_RET_OK) :
    PollStops env pThis k w := by
  induction k generalizing w with
  | zero => exact pollFile_loop_stops_at_read env pThis 0 w hfin
  | succ k ih =>
    by_cases h1 : env.ret Fn.strmReadLine (calls Fn.strmReadLine w) = RS_RET_OK
    · by_cases h2 : env.ret Fn.msgConstruct (calls Fn.msgConstruct w) = RS_RET_OK
      · by_cases h3 : env.ret Fn.submitMsg (calls Fn.submitMsg w) = RS_RET_OK
        · have hn : calls Fn.strmReadLine
              (w ++ [Call.strmReadLine pThis.pStrm, Call.msgConstruct, Call.getCurrTime,
                Call.submitMsg (enqLine_msg env pThis (env.line (calls Fn.strmReadLine w))
                  (env.now (calls Fn.getCurrTime w)))]) = calls Fn.strmReadLine w + 1 := by
            simp [calls_append, calls_cons, calls_nil, Call.fn]
          have hc : calls Fn.msgConstruct
              (w ++ [Call.strmReadLine pThis.pStrm, Call.msgConstruct, Call.getCurrTime,
                Call.submitMsg (enqLine_msg env pThis (env.line (calls Fn.strmReadLine w))
                  (env.now (calls Fn.getCurrTime w)))]) = calls Fn.msgConstruct w + 1 := by
            simp [calls_append, calls_cons, calls_nil, Call.fn]
          have ht : calls Fn.getCurrTime
              (w ++ [Call.strmReadLine pThis.pStrm, Call.msgConstruct, Call.getCurrTime,
                Call.submitMsg (enqLine_msg env pThis (env.line (calls Fn.strmReadLine w))
                  (env.now (calls Fn.getCurrTime w)))]) = calls Fn.getCurrTime w + 1 := by
            simp [calls_append, calls_cons, calls_nil, Call.fn]
          have hs : calls Fn.submitMsg
              (w ++ [Call.strmReadLine pThis.pStrm, Call.msgConstruct, Call.getCurrTime,
                Call.submitMsg (enqLine_msg env pThis (env.line (calls Fn.strmReadLine w))
                  (env.now (calls Fn.getCurrTime w)))]) = calls Fn.submitMsg w + 1 := by
            simp [calls_append, calls_cons, calls_nil, Call.fn]
          have hsub : submitted
              (w ++ [Call.strmReadLine pThis.pStrm, Call.msgConstruct, Call.getCurrTime,
                Call.submitMsg (enqLine_msg env pThis (env.line (calls Fn.strmReadLine w))
                  (env.now (calls Fn.getCurrTime w)))]) =
              submitted w ++ [enqLine_msg env pThis (env.line (calls Fn.strmReadLine w))
                  (env.now (calls Fn.getCurrTime w))] := by
            simp [submitted_append, submitted]
          obtain ⟨j, hj, r, w2, hrun, hr, hall, hreads, hcase⟩ :=
            ih (w ++ [Call.strmReadLine pThis.pStrm, Call.msgConstruct, Call.getCurrTime,
                Call.submitMsg (enqLine_msg env pThis (env.line (calls Fn.strmReadLine w))
                  (env.now (calls Fn.getCurrTime w)))])
              (by rw [hn, Nat.add_assoc, Nat.add_comm 1 k]; exact hfin)
          rw [hn, hc, hs] at hall
          rw [hn] at hreads
          rw [hn, hc, hs, ht, hsub] at hcase
          have shift : ∀ (a i : Nat), a + 1 + i = a + (i + 1) := by intros; omega
          refine ⟨j + 1, Nat.succ_le_succ hj, r, w2, fun fuel hf => ?_, hr, fun i hi => ?_, ?_, ?_⟩
          · obtain ⟨f, rfl⟩ := Nat.exists_eq_succ_of_ne_zero (by omega : fuel ≠ 0)
            rw [pollFile_loop_succ, if_neg (not_not.mpr h1), if_neg (not_not.mpr h2),
              if_neg (not_not.mpr h3)]
            exact hrun f (by omega)
          · rcases i with _ | i
            · exact ⟨h1, h2, h3⟩
            · have := hall i (by omega)
              simpa only [shift] using this
          · rw [hreads]; omega
          · simp only [shift] at hcase
            rcases hcase with ⟨e1, e2⟩ | ⟨e1, e2, e3⟩ | ⟨e1, e2, e3, e4⟩
            · exact Or.inl ⟨e1, by rw [e2, forwarded_succ, List.append_assoc]; rfl⟩
            · exact Or.inr (Or.inl ⟨e1, e2, by rw [e3, forwarded_succ, List.append_assoc]; rfl⟩)
            · exact Or.inr (Or.inr ⟨e1, e2, e3, by
                rw [e4, forwarded_succ _ _ _ _ (j + 1), List.append_assoc]; rfl⟩)
        · refine ⟨0, Nat.zero_le _, env.ret Fn.submitMsg (calls Fn.submitMsg w),
            w ++ [Call.strmReadLine pThis.pStrm, Call.msgConstruct, Call.getCurrTime,
              Call.submitMsg (enqLine_msg env pThis (env.line (calls Fn.strmReadLine w))
                (env.now (calls Fn.getCurrTime w)))],
            fun fuel hf => ?_, h3,
            fun i hi => absurd hi (Nat.not_lt_zero _), ?_, Or.inr (Or.inr ⟨h1, h2, rfl, ?_⟩)⟩
          · obtain ⟨f, rfl⟩ := Nat.exists_eq_succ_of_ne_zero (Nat.pos_iff_ne_zero.mp hf)
            rw [pollFile_loop_succ, if_neg (not_not.mpr h1), if_neg (not_not.mpr h2), if_pos h3]
          · simp [calls_append, calls_cons, calls_nil, Call.fn]
          · simp [submitted_append, submitted, forwarded, List.range_succ]
      · refine ⟨0, Nat.zero_le _, env.ret Fn.msgConstruct (calls Fn.msgConstruct w),
          w ++ [Call.strmReadLine pThis.pStrm, Call.msgConstruct], fun fuel hf => ?_, h2,
          fun i hi => absurd hi (Nat.not_lt_zero _), ?_, Or.inr (Or.inl ⟨h1, rfl, ?_⟩)⟩
        · obtain ⟨f, rfl⟩ := Nat.exists_eq_succ_of_ne_zero (Nat.pos_iff_ne_zero.mp hf)
          rw [pollFile_loop_succ, if_neg (not_not.mpr h1), if_pos h2]
        · simp [calls_append, calls_cons, calls_nil, Call.fn]
        · simp [submitted_append, submitted, forwarded]
    · exact pollFile_loop_stops_at_read env pThis (k + 1) w h1

/-! ## Theorems: a pass over open files completes -/

theorem mem_take_finRange (n : Nat) (j : Fin MAX_INPUT_FILES)
    (h : j ∈ (List.finRange MAX_INPUT_FILES).take n) : j.val < n := by
  obtain ⟨i, hi, e⟩ := List.mem_iff_getElem.mp h
  rw [List.getElem_take, List.getElem_finRange] at e
  rw [List.length_take] at hi
  rw [← e]
  exact lt_of_lt_of_le hi (Nat.min_le_left _ _)

theorem pollFile_loop_no_srSleep (env : Env) (fuel : Nat) (pThis : fileInfo_t) (w : World)
    (r : rsRetVal) (w2 : World) (h : pollFile_loop env fuel pThis w = Except.ok (r, w2)) :
    calls Fn.srSleep w2 = calls Fn.srSleep w := by
  induction fuel generalizing w with
  | zero => simp [pollFile_loop] at h
  | succ n ih =>
    rw [pollFile_loop_succ] at h
    split_ifs at h
    · simp only [Except.ok.injEq, Prod.mk.injEq] at h
      rw [← h.2]
      simp [calls_append, calls_cons, calls_nil, Call.fn]
    · simp only [Except.ok.injEq, Prod.mk.injEq] at h
      rw [← h.2]
      simp [calls_append, calls_cons, calls_nil, Call.fn]
    · simp only [Except.ok.injEq, Prod.mk.injEq] at h
      rw [← h.2]
      simp [calls_append, calls_cons, calls_nil, Call.fn]
    · rw [ih _ h]
      simp [calls_append, calls_cons, calls_nil, Call.fn]

theorem pollFile_open_completes (env : Env) (pThis : fileInfo_t) (w : World)
    (hopen : pThis.pStrm ≠ none)
    (hend : ∀ n, ∃ k, env.ret Fn.strmReadLine (n + k) ≠ RS_RET_OK) :
    ∃ (F : Nat) (r : rsRetVal) (w2 : World),
      (∀ fuel, F ≤ fuel → pollFile env fuel pThis w = Except.ok (r, pThis, w2)) ∧
      calls Fn.srSleep w2 = calls Fn.srSleep w := by
  obtain ⟨k, hk⟩ := hend (calls Fn.strmReadLine w)
  obtain ⟨j, _, r, w2, hrun, _⟩ := pollFile_loop_stops env pThis k w hk
  obtain ⟨h, hh⟩ := Option.ne_none_iff_exists'.mp hopen
  refine ⟨j + 1, r, w2, fun fuel hf => ?_,
    pollFile_loop_no_srSleep env (j + 1) pThis w r w2 (hrun (j + 1) (by omega))⟩
  unfold pollFile
  rw [hh]
  dsimp only
  rw [hrun fuel (by omega)]

theorem pollEach_open_completes (env : Env) (js : List (Fin MAX_INPUT_FILES))
    (files : Fin MAX_INPUT_FILES → fileInfo_t) (w : World)
    (hopen : ∀ j ∈ js, (files j).pStrm ≠ none)
    (hend : ∀ n, ∃ k, env.ret Fn.strmReadLine (n + k) ≠ RS_RET_OK) :
    ∃ (F : Nat) (w1 : World),
      (∀ fuel, F ≤ fuel → pollEach env fuel js files w = Except.ok (files, w1)) ∧
      calls Fn.srSleep w1 = calls Fn.srSleep w := by
  induction js generalizing w with
  | nil => exact ⟨0, w, fun _ _ => rfl, rfl⟩
  | cons j js ih =>
    obtain ⟨F1, r, w2, h1, c1⟩ :=
      pollFile_open_completes env (files j) w (hopen j (List.mem_cons_self _ _)) hend
    obtain ⟨F2, w1, h2, c2⟩ := ih w2 (fun x hx => hopen x (List.mem_cons_of_mem _ hx))
    refine ⟨max F1 F2, w1, fun fuel hf => ?_, c2.trans c1⟩
    rw [pollEach, h1 fuel (le_trans (le_max_left _ _) hf)]
    dsimp only
    rw [Function.update_eq_self]
    exact h2 fuel (le_trans (le_max_right _ _) hf)

theorem runInput_pass_open_completes (env : Env) (s : ModData) (w : World)
    (hn : s.iFilPtr ≤ MAX_INPUT_FILES)
    (hopen : ∀ j : Fin MAX_INPUT_FILES, j.val < s.iFilPtr → (s.files j).pStrm ≠ none)
    (hend : ∀ n, ∃ k, env.ret Fn.strmReadLine (n + k) ≠ RS_RET_OK) :
    ∃ (F : Nat) (w1 : World),
      (∀ fuel, F ≤ fuel →
        runInput_pass env fuel s w = Except.ok (s,
          w1 ++ [Call.RUNLOG_VAR s.iPollInterval, Call.srSleep s.iPollInterval 10])) ∧
      calls Fn.srSleep w1 = calls Fn.srSleep w := by
  obtain ⟨F, w1, h, c⟩ := pollEach_open_completes env
    ((List.finRange MAX_INPUT_FILES).take s.iFilPtr) s.files w
    (fun j hj => hopen j (mem_take_finRange _ _ hj)) hend
  refine ⟨F, w1, fun fuel hf => ?_, c⟩
  unfold runInput_pass
  rw [runInput_for_eq_pollEach env fuel s.iFilPtr 0 s.files w (by omega)]
  have := h fuel hf
  rw [List.drop_zero, this]

theorem runInput_open_completes (env : Env) (s : ModData) (n : Nat) (w : World)
    (hn : s.iFilPtr ≤ MAX_INPUT_FILES)
    (hopen : ∀ j : Fin MAX_INPUT_FILES, j.val < s.iFilPtr → (s.files j).pStrm ≠ none)
    (hend : ∀ n, ∃ k, env.ret Fn.strmReadLine (n + k) ≠ RS_RET_OK) :
    ∃ (F : Nat) (w1 : World),
      (∀ fuel, F ≤ fuel → runInput env fuel n s w = Except.ok (s, w1)) ∧
      calls Fn.srSleep w1 = calls Fn.srSleep w + n := by
  induction n generalizing w with
  | zero => exact ⟨0, w, fun _ _ => rfl, rfl⟩
  | succ n ih =>
    obtain ⟨F1, w1, h1, c1⟩ := runInput_pass_open_completes env s w hn hopen hend
    obtain ⟨F2, w2, h2, c2⟩ :=
      ih (w1 ++ [Call.RUNLOG_VAR s.iPollInterval, Call.srSleep s.iPollInterval 10])
    refine ⟨max F1 F2, w2, fun fuel hf => ?_, ?_⟩
    · rw [runInput, h1 fuel (le_trans (le_max_left _ _) hf)]
      exact h2 fuel (le_trans (le_max_right _ _) hf)
    · rw [c2, calls_append, c1]
      simp [calls_cons, calls_nil, Call.fn]
      omega

/-! ## Theorems: the claims -/

/-- C1, as stated, fails: after one hundred `inputrunfilemonitor` directives
the registry holds `MAX_INPUT_FILES` monitors, and the next `addMonitor`
returns `RS_RET_OK`, not an error. -/
theorem addMonitor_full_returns_OK :
    (loaded (List.replicate 100 Directive.inputrunfilemonitor)).1.iFilPtr = MAX_INPUT_FILES ∧
    ¬ (addMonitor (loaded (List.replicate 100 Directive.inputrunfilemonitor)).1
        (loaded (List.replicate 100 Directive.inputrunfilemonitor)).2).1 ≠ RS_RET_OK :=
  ⟨rfl, fun h => h rfl⟩

/-- C1, amended: when the registry already holds `MAX_INPUT_FILES` monitors,
`addMonitor` logs "Too many file monitors configured - ignoring this one",
leaves the module data untouched and returns `RS_RET_OK`. -/
theorem addMonitor_full_ignored (s : ModData) (w : World) (h : MAX_INPUT_FILES ≤ s.iFilPtr) :
    addMonitor s w =
      (RS_RET_OK, s, w ++ [Call.logerror "Too many file monitors configured - ignoring this one"]) := by
  unfold addMonitor
  rw [dif_neg (by omega)]

theorem addMonitor_full_ignored_witness :
    MAX_INPUT_FILES ≤ (loaded (List.replicate 100 Directive.inputrunfilemonitor)).1.iFilPtr ∧
    addMonitor (loaded (List.replicate 100 Directive.inputrunfilemonitor)).1 [] =
      (RS_RET_OK, (loaded (List.replicate 100 Directive.inputrunfilemonitor)).1,
        [] ++ [Call.logerror "Too many file monitors configured - ignoring this one"]) :=
  ⟨by decide, addMonitor_full_ignored _ [] (by decide)⟩

/-- C2: in every state reached from the initial one by directives
(`addMonitor`, `resetConfigVariables`, setting a variable), `addMonitor` with
room left raises the count by one and appends one monitor built from the
current config values with `offsLast = 0`, the earlier monitors unchanged;
with the registry full it changes neither count nor entries; the count stays
within `MAX_INPUT_FILES`; and no later directive alters a registered monitor. -/
theorem addMonitor_effect (ds : List Directive) (w : World) :
    ((loaded ds).1.iFilPtr < MAX_INPUT_FILES →
      (addMonitor (loaded ds).1 w).2.1.iFilPtr = (loaded ds).1.iFilPtr + 1 ∧
      (addMonitor (loaded ds).1 w).2.1.monitors = (loaded ds).1.monitors ++
        [{ pszFileName := (loaded ds).1.pszFileName, pszTag := (loaded ds).1.pszFileTag,
           pszStateFile := (loaded ds).1.pszStateFile, offsLast := 0,
           iFacility := (loaded ds).1.iFacility, iSeverity := (loaded ds).1.iSeverity,
           pStrm := none }]) ∧
    (MAX_INPUT_FILES ≤ (loaded ds).1.iFilPtr →
      (addMonitor (loaded ds).1 w).2.1.iFilPtr = (loaded ds).1.iFilPtr ∧
      (addMonitor (loaded ds).1 w).2.1.files = (loaded ds).1.files) ∧
    (loaded ds).1.iFilPtr ≤ MAX_INPUT_FILES ∧
    (addMonitor (loaded ds).1 w).2.1.iFilPtr ≤ MAX_INPUT_FILES ∧
    (∀ (later : List Directive) (w1 : World) (j : Fin MAX_INPUT_FILES),
      j.val < (addMonitor (loaded ds).1 w).2.1.iFilPtr →
      (configure later ((addMonitor (loaded ds).1 w).2.1, w1)).1.files j =
        (addMonitor (loaded ds).1 w).2.1.files j) := by
  have hp := loaded_pristine ds
  refine ⟨fun h => ⟨?_, ?_⟩, fun h => ?_, hp.1, ?_, fun later w1 j hj => ?_⟩
  · rw [addMonitor_iFilPtr, if_pos h]
  · rw [addMonitor_monitors_append _ _ h, addMonitor_files_eq _ _ h (hp.2 ⟨_, h⟩ (le_refl _))]
  · unfold addMonitor; rw [dif_neg (by omega)]; exact ⟨rfl, rfl⟩
  · rw [addMonitor_iFilPtr]; have := hp.1; split_ifs <;> omega
  · exact (configure_files_below later (_, w1) j hj).2

theorem addMonitor_effect_witness :
    (loaded [Directive.inputfilename "/var/log/a", Directive.inputfiletag "a:",
        Directive.inputfilestatefile "a.si"]).1.iFilPtr < MAX_INPUT_FILES ∧
    (addMonitor (loaded [Directive.inputfilename "/var/log/a", Directive.inputfiletag "a:",
        Directive.inputfilestatefile "a.si"]).1 []).2.1.monitors =
      [] ++ [{ pszFileName := some "/var/log/a", pszTag := some "a:", pszStateFile := some "a.si",
               offsLast := 0, iFacility := 0, iSeverity := 0, pStrm := none }] :=
  ⟨by decide, ((addMonitor_effect _ []).1 (by decide)).2⟩

/-- C3, as stated, fails: with one monitor registered, `resetConfigVariables`
leaves the monitor count at 1, not 0. -/
theorem resetConfigVariables_keeps_monitor :
    ¬ (resetConfigVariables (loaded [Directive.inputrunfilemonitor]).1).2.iFilPtr = 0 := by
  decide

/-- C3, amended: `resetConfigVariables` does not touch the registry; monitor
count and every entry are after the call what they were before. -/
theorem resetConfigVariables_registry_unchanged (s : ModData) :
    (resetConfigVariables s).2.iFilPtr = s.iFilPtr ∧
    (resetConfigVariables s).2.files = s.files ∧
    (resetConfigVariables s).2.monitors = s.monitors := by
  have h := resetConfigVariables_registry s
  exact ⟨h.1, h.2, by unfold ModData.monitors; rw [h.1, h.2]⟩

/-- C4 at the failing input: with a pending state-file name set,
`resetConfigVariables` clears file name and tag and installs 10, 12 and 4,
but the pending state-file name is still set afterwards. -/
theorem resetConfigVariables_leaves_pszStateFile :
    (resetConfigVariables (loaded [Directive.inputfilename "/var/log/a",
        Directive.inputfiletag "a:", Directive.inputfilestatefile "a.si"]).1).2.pszStateFile
      = some "a.si" ∧
    (resetConfigVariables (loaded [Directive.inputfilename "/var/log/a",
        Directive.inputfiletag "a:", Directive.inputfilestatefile "a.si"]).1).2.pszFileName
      = none ∧
    (resetConfigVariables (loaded [Directive.inputfilename "/var/log/a",
        Directive.inputfiletag "a:", Directive.inputfilestatefile "a.si"]).1).2.pszFileTag
      = none := by
  decide

/-- C5: `willRun` returns `RS_RET_NO_RUN` exactly when the monitor count is 0
and `RS_RET_OK` otherwise; after any sequence of directives from the initial
state it returns `RS_RET_OK` exactly when `inputrunfilemonitor` (that is,
`addMonitor`) occurred in the sequence. -/
theorem willRun_iff_monitor_registered (s : ModData) (w : World) (ds : List Directive) :
    ((willRun s w).1 = RS_RET_NO_RUN ↔ s.iFilPtr = 0) ∧
    ((willRun s w).1 = RS_RET_OK ↔ s.iFilPtr ≠ 0) ∧
    ((willRun (loaded ds).1 w).1 = RS_RET_OK ↔ Directive.inputrunfilemonitor ∈ ds) := by
  have key : ∀ (t : ModData), ((willRun t w).1 = RS_RET_OK ↔ t.iFilPtr ≠ 0) := by
    intro t
    unfold willRun
    split_ifs with h <;> simp [h]
  refine ⟨?_, key s, ?_⟩
  · unfold willRun
    split_ifs with h <;> simp [h]
  · rw [key, loaded, configure_iFilPtr_ne_zero]
    simp [ModData.init]

/-- C10 at the failing input: in the initial state facility and severity are
0, not 12 and 4; `resetConfigVariables` changes them; a monitor registered
without any directive gets facility 0 and severity 0. -/
theorem init_facility_severity_zero :
    ModData.init.iPollInterval = 10 ∧ ModData.init.iFacility = 0 ∧ ModData.init.iSeverity = 0 ∧
    (resetConfigVariables ModData.init).2.iFacility = 12 ∧
    (resetConfigVariables ModData.init).2.iSeverity = 4 ∧
    (loaded [Directive.inputrunfilemonitor]).1.monitors =
      [{ pszFileName := none, pszTag := none, pszStateFile := none, offsLast := 0,
         iFacility := 0, iSeverity := 0, pStrm := none }] := by
  decide

/-- C6: with the cursor inside the array and a state-file name in every
registered monitor, `afterRun` runs `persistStrmState` on the registered
monitors one after the other, in registration order, whatever each run
returns, and itself returns `RS_RET_OK`: in every environment the entries
`persistStrmState` announces are exactly the state files of the registered
monitors, once each and in order. -/
theorem afterRun_persists_every_monitor (env : Env) (s : ModData) (w : World)
    (hn : s.iFilPtr ≤ MAX_INPUT_FILES) (hsf : ∀ m ∈ s.monitors, m.pszStateFile ≠ none) :
    (afterRun env s w =
      match persistEach env s.monitors w with
      | Except.error f => Except.error f
      | Except.ok w1 => Except.ok (RS_RET_OK, w1)) ∧
    ∃ w1, afterRun env s w = Except.ok (RS_RET_OK, w1) ∧
      persistAttempts w1 = persistAttempts w ++ s.monitors.map (fun m => m.pszStateFile) := by
  have heq : afterRun_for env s.files s.iFilPtr 0 w = persistEach env s.monitors w := by
    rw [afterRun_for_eq_persistEach env s.files s.iFilPtr 0 w (by omega)]
    rfl
  obtain ⟨w1, h1, h2⟩ := persistEach_announces env s.monitors w hsf
  unfold afterRun
  rw [heq, h1]
  exact ⟨rfl, w1, rfl, h2⟩

theorem afterRun_persists_every_monitor_witness :
    (loaded sampleConfig).1.iFilPtr ≤ MAX_INPUT_FILES ∧
    (∀ m ∈ (loaded sampleConfig).1.monitors, m.pszStateFile ≠ none) ∧
    ∃ w1, afterRun (sampleEnv StatResult.ENOENT Fn.strmConstruct 0) (loaded sampleConfig).1 [] =
        Except.ok (RS_RET_OK, w1) ∧
      persistAttempts w1 = persistAttempts [] ++
        (loaded sampleConfig).1.monitors.map (fun m => m.pszStateFile) :=
  ⟨by decide, by decide,
    (afterRun_persists_every_monitor (sampleEnv StatResult.ENOENT Fn.strmConstruct 0) (loaded sampleConfig).1 []
      (by decide) (by decide)).2⟩

/-- C7: with the cursor inside the array, one pass of `runInput` runs
`pollFile` on the slots 0 to `iFilPtr - 1` one after the other, whatever each
run returns, then logs and calls `srSleep(iPollInterval, 10)`; `runInput` goes
from every completed pass to the next one; and when every registered monitor
is open and `strmReadLine` always answers a code other than `RS_RET_OK` after
finitely many calls, every number `n` of passes completes (with enough fuel),
with exactly `n` calls of `srSleep`. -/
theorem runInput_pass_polls_every_monitor (env : Env) (s : ModData) (w : World)
    (hn : s.iFilPtr ≤ MAX_INPUT_FILES) :
    (∀ fuel : Nat, runInput_pass env fuel s w =
      match pollEach env fuel ((List.finRange MAX_INPUT_FILES).take s.iFilPtr) s.files w with
      | Except.error f => Except.error f
      | Except.ok (files, w1) =>
        Except.ok ({ s with files := files },
          w1 ++ [Call.RUNLOG_VAR s.iPollInterval, Call.srSleep s.iPollInterval 10])) ∧
    (∀ fuel n : Nat, runInput env fuel (n + 1) s w =
      match runInput_pass env fuel s w with
      | Except.error f => Except.error f
      | Except.ok (s1, w1) => runInput env fuel n s1 w1) ∧
    ((∀ j : Fin MAX_INPUT_FILES, j.val < s.iFilPtr → (s.files j).pStrm ≠ none) →
      (∀ c, ∃ k, env.ret Fn.strmReadLine (c + k) ≠ RS_RET_OK) →
      ∀ n : Nat, ∃ (F : Nat) (w1 : World),
        (∀ fuel, F ≤ fuel → runInput env fuel n s w = Except.ok (s, w1)) ∧
        calls Fn.srSleep w1 = calls Fn.srSleep w + n) := by
  refine ⟨fun fuel => ?_, fun fuel n => rfl,
    fun hopen hend n => runInput_open_completes env s n w hn hopen hend⟩
  unfold runInput_pass
  rw [runInput_for_eq_pollEach env fuel s.iFilPtr 0 s.files w (by omega)]
  rfl

theorem runInput_pass_polls_every_monitor_witness :
    (loaded sampleConfig).1.iFilPtr ≤ MAX_INPUT_FILES ∧
    runInput_pass (sampleEnv StatResult.ENOENT Fn.strmReadLine 0) 3 (loaded sampleConfig).1 [] =
      match pollEach (sampleEnv StatResult.ENOENT Fn.strmReadLine 0) 3
          ((List.finRange MAX_INPUT_FILES).take (loaded sampleConfig).1.iFilPtr)
          (loaded sampleConfig).1.files [] with
      | Except.error f => Except.error f
      | Except.ok (files, w1) =>
        Except.ok ({ (loaded sampleConfig).1 with files := files },
          w1 ++ [Call.RUNLOG_VAR (loaded sampleConfig).1.iPollInterval,
                 Call.srSleep (loaded sampleConfig).1.iPollInterval 10]) :=
  ⟨by decide,
    (runInput_pass_polls_every_monitor (sampleEnv StatResult.ENOENT Fn.strmReadLine 0)
      (loaded sampleConfig).1 [] (by decide)).1 3⟩

/-- C8: `openFile` reaches `finalize_it` with `iRet` other than `RS_RET_OK`
exactly when the state file is absent, `stat` fails, or one of the seven
restore calls (stream setup, `objDeserialize`, `strmSeekCurrOffs`) fails.
Whenever it does, and the five fallback calls succeed, `openFile` constructs a
fresh `STREAMMODE_READ`, `STREAMTYPE_FILE_MONITOR` stream on the monitor's own
file name and returns `RS_RET_OK` with that stream in the monitor, and
`pollFile` goes on to call `strmReadLine` on it. -/
theorem openFile_falls_back_when_restore_fails
    (env : Env) (fuel : Nat) (pThis : fileInfo_t) (w : World) (sf name : String)
    (iRet : rsRetVal) (psSF : Option Nat) (p1 : fileInfo_t) (w1 : World)
    (hsf : pThis.pszStateFile = some sf) (hname : pThis.pszFileName = some name)
    (hres : openFile_restore env sf pThis w = (iRet, psSF, p1, w1))
    (hfail : iRet ≠ RS_RET_OK)
    (h1 : env.ret Fn.strmConstruct (calls Fn.strmConstruct (destructSF psSF w1)) = RS_RET_OK)
    (h2 : env.ret Fn.strmSettOperationsMode
        (calls Fn.strmSettOperationsMode (destructSF psSF w1)) = RS_RET_OK)
    (h3 : env.ret Fn.strmSetsType (calls Fn.strmSetsType (destructSF psSF w1)) = RS_RET_OK)
    (h4 : env.ret Fn.strmSetFName (calls Fn.strmSetFName (destructSF psSF w1)) = RS_RET_OK)
    (h5 : env.ret Fn.strmConstructFinalize
        (calls Fn.strmConstructFinalize (destructSF psSF w1)) = RS_RET_OK) :
    (iRet ≠ RS_RET_OK ↔
      ¬ (env.statRes (calls Fn.stat w) = StatResult.found ∧
        env.ret Fn.strmConstruct (calls Fn.strmConstruct w) = RS_RET_OK ∧
        env.ret Fn.strmSettOperationsMode (calls Fn.strmSettOperationsMode w) = RS_RET_OK ∧
        env.ret Fn.strmSetsType (calls Fn.strmSetsType w) = RS_RET_OK ∧
        env.ret Fn.strmSetFName (calls Fn.strmSetFName w) = RS_RET_OK ∧
        env.ret Fn.strmConstructFinalize (calls Fn.strmConstructFinalize w) = RS_RET_OK ∧
        env.ret Fn.objDeserialize (calls Fn.objDeserialize w) = RS_RET_OK ∧
        env.ret Fn.strmSeekCurrOffs (calls Fn.strmSeekCurrOffs w) = RS_RET_OK)) ∧
    openFile env (fuel + 1) pThis w =
      Except.ok (RS_RET_OK,
        { pThis with pStrm := some (newObj env Call.strmConstruct (destructSF psSF w1)) },
        destructSF psSF w1 ++
          [Call.strmConstruct,
           Call.strmSettOperationsMode (newObj env Call.strmConstruct (destructSF psSF w1))
             strmMode.STREAMMODE_READ,
           Call.strmSetsType (newObj env Call.strmConstruct (destructSF psSF w1))
             strmType.STREAMTYPE_FILE_MONITOR,
           Call.strmSetFName (newObj env Call.strmConstruct (destructSF psSF w1)) name name.length,
           Call.strmConstructFinalize (newObj env Call.strmConstruct (destructSF psSF w1))]) ∧
    (pThis.pStrm = none → ∀ (r : rsRetVal) (p2 : fileInfo_t) (w2 : World),
      pollFile env (fuel + 1) pThis w = Except.ok (r, p2, w2) →
      p2 = { pThis with pStrm := some (newObj env Call.strmConstruct (destructSF psSF w1)) } ∧
      (destructSF psSF w1 ++
          [Call.strmConstruct,
           Call.strmSettOperationsMode (newObj env Call.strmConstruct (destructSF psSF w1))
             strmMode.STREAMMODE_READ,
           Call.strmSetsType (newObj env Call.strmConstruct (destructSF psSF w1))
             strmType.STREAMTYPE_FILE_MONITOR,
           Call.strmSetFName (newObj env Call.strmConstruct (destructSF psSF w1)) name name.length,
           Call.strmConstructFinalize (newObj env Call.strmConstruct (destructSF psSF w1)),
           Call.strmReadLine (some (newObj env Call.strmConstruct (destructSF psSF w1)))])
        <+: w2) := by
  have hopen : openFile env (fuel + 1) pThis w =
      Except.ok (RS_RET_OK,
        { pThis with pStrm := some (newObj env Call.strmConstruct (destructSF psSF w1)) },
        destructSF psSF w1 ++
          [Call.strmConstruct,
           Call.strmSettOperationsMode (newObj env Call.strmConstruct (destructSF psSF w1))
             strmMode.STREAMMODE_READ,
           Call.strmSetsType (newObj env Call.strmConstruct (destructSF psSF w1))
             strmType.STREAMTYPE_FILE_MONITOR,
           Call.strmSetFName (newObj env Call.strmConstruct (destructSF psSF w1)) name name.length,
           Call.strmConstructFinalize (newObj env Call.strmConstruct (destructSF psSF w1))]) := by
    have hmon := openFile_restore_monitor env sf pThis w
      (newObj env Call.strmConstruct (destructSF psSF w1))
    rw [hres] at hmon
    dsimp only at hmon
    have hnm : p1.pszFileName = some name := by
      have := congrArg fileInfo_t.pszFileName hmon
      exact this.trans hname
    unfold openFile
    rw [hsf]
    dsimp only
    rw [hres]
    dsimp only
    rw [openFile_finalize]
    dsimp only
    simp only [fileInfo_t.mk.injEq] at hmon
    obtain ⟨e1, e2, e3, e4, e5, e6, _⟩ := hmon
    rw [if_pos hfail, CHKiRet_ok _ _ _ (by simpa using h1),
      CHKiRet_ok _ _ _ (by simpa [calls_append, calls_cons, calls_nil, Call.fn] using h2),
      CHKiRet_ok _ _ _ (by simpa [calls_append, calls_cons, calls_nil, Call.fn] using h3), hnm]
    dsimp only
    rw [CHKiRet_ok _ _ _ (by simpa [calls_append, calls_cons, calls_nil, Call.fn] using h4),
      CHKiRet_ok _ _ _ (by simpa [calls_append, calls_cons, calls_nil, Call.fn] using h5)]
    simp [List.append_assoc, e2, e3, e4, e5, e6, hname, hsf]
  refine ⟨?_, hopen, ?_⟩
  · have := openFile_restore_OK_iff env sf pThis w
    rw [hres] at this
    exact not_congr this
  · intro hclosed r p2 w2 hpoll
    unfold pollFile at hpoll
    rw [hclosed] at hpoll
    dsimp only at hpoll
    rw [hopen] at hpoll
    dsimp only at hpoll
    rw [if_neg (by simp)] at hpoll
    split at hpoll
    · exact absurd hpoll (by simp)
    · rename_i r0 w0 hloop
      simp only [Except.ok.injEq, Prod.mk.injEq] at hpoll
      obtain ⟨_, hp, hw⟩ := hpoll
      subst hp hw
      refine ⟨rfl, ?_⟩
      have := pollFile_loop_reads_first env _ _ _ _ _ hloop
      simpa [List.append_assoc] using this

theorem openFile_falls_back_when_restore_fails_witness :
    openFile (sampleEnv StatResult.found Fn.objDeserialize 0) 1 sampleMonitor [] =
      Except.ok (RS_RET_OK, { sampleMonitor with pStrm := some 2 },
        [Call.stat "/var/spool/a.si", Call.strmConstruct,
         Call.strmSettOperationsMode 1 strmMode.STREAMMODE_READ,
         Call.strmSetsType 1 strmType.STREAMTYPE_FILE_SINGLE,
         Call.strmSetFName 1 "/var/spool/a.si" 15,
         Call.strmConstructFinalize 1, Call.objDeserialize 1, Call.strmDestruct 1,
         Call.strmConstruct,
         Call.strmSettOperationsMode 2 strmMode.STREAMMODE_READ,
         Call.strmSetsType 2 strmType.STREAMTYPE_FILE_MONITOR,
         Call.strmSetFName 2 "/var/log/a" 10,
         Call.strmConstructFinalize 2]) ∧
    openFile (sampleEnv StatResult.ENOENT Fn.objDeserialize 0) 1 sampleMonitor [] =
      Except.ok (RS_RET_OK, { sampleMonitor with pStrm := some 1 },
        [Call.stat "/var/spool/a.si", Call.strmConstruct,
         Call.strmSettOperationsMode 1 strmMode.STREAMMODE_READ,
         Call.strmSetsType 1 strmType.STREAMTYPE_FILE_MONITOR,
         Call.strmSetFName 1 "/var/log/a" 10,
         Call.strmConstructFinalize 1]) :=
  ⟨(openFile_falls_back_when_restore_fails (sampleEnv StatResult.found Fn.objDeserialize 0) 0
      sampleMonitor [] "a.si" "/var/log/a" RS_RET_IO_ERROR (some 1) sampleMonitor
      [Call.stat "/var/spool/a.si", Call.strmConstruct,
         Call.strmSettOperationsMode 1 strmMode.STREAMMODE_READ,
         Call.strmSetsType 1 strmType.STREAMTYPE_FILE_SINGLE,
         Call.strmSetFName 1 "/var/spool/a.si" 15,
         Call.strmConstructFinalize 1, Call.objDeserialize 1]
      rfl rfl (by decide) (by decide) (by decide) (by decide) (by decide) (by decide)
      (by decide)).2.1,
   (openFile_falls_back_when_restore_fails (sampleEnv StatResult.ENOENT Fn.objDeserialize 0) 0
      sampleMonitor [] "a.si" "/var/log/a" RS_RET_FILE_NOT_FOUND none sampleMonitor
      [Call.stat "/var/spool/a.si"]
      rfl rfl (by decide) (by decide) (by decide) (by decide) (by decide) (by decide)
      (by decide)).2.1⟩

/-- C9: for a monitor whose stream is open and whose `strmReadLine` answers a
code other than `RS_RET_OK` at the latest at its `k`-th further call,
`pollFile` returns with every fuel above some `j ≤ k`: it ran `j` iterations
in which `strmReadLine`, `msgConstruct` and `submitMsg` all succeeded, and
stopped in iteration `j` at the first code other than `RS_RET_OK`, which it
returns.  It has then called `strmReadLine` exactly `j + 1` times, and the
messages it submitted are, in read order, those of the first `j` lines (line
text, the monitor's tag, facility and severity), followed by that of line `j`
exactly when it was `submitMsg` that failed on line `j`. -/
theorem pollFile_forwards_lines_until_first_failure
    (env : Env) (pThis : fileInfo_t) (h : Nat) (w : World) (k : Nat)
    (hopen : pThis.pStrm = some h)
    (hfin : env.ret Fn.strmReadLine (calls Fn.strmReadLine w + k) ≠ RS_RET_OK) :
    ∃ j, j ≤ k ∧ ∃ (r : rsRetVal) (w2 : World),
      (∀ fuel, j < fuel → pollFile env fuel pThis w = Except.ok (r, pThis, w2)) ∧
      r ≠ RS_RET_OK ∧
      (∀ i, i < j →
        env.ret Fn.strmReadLine (calls Fn.strmReadLine w + i) = RS_RET_OK ∧
        env.ret Fn.msgConstruct (calls Fn.msgConstruct w + i) = RS_RET_OK ∧
        env.ret Fn.submitMsg (calls Fn.submitMsg w + i) = RS_RET_OK) ∧
      calls Fn.strmReadLine w2 = calls Fn.strmReadLine w + j + 1 ∧
      ((r = env.ret Fn.strmReadLine (calls Fn.strmReadLine w + j) ∧
          submitted w2 = submitted w ++ (List.range j).map (fun i =>
            ({ pszUxTradMsg := env.line (calls Fn.strmReadLine w + i),
               pszRawMsg := env.line (calls Fn.strmReadLine w + i),
               pszMSG := env.line (calls Fn.strmReadLine w + i),
               pszHOSTNAME := env.LocalHostName, pszTAG := pThis.pszTag,
               iFacility := pThis.iFacility, iSeverity := pThis.iSeverity,
               bParseHOSTNAME := 0,
               tTIMESTAMP := env.now (calls Fn.getCurrTime w + i) } : msg_t))) ∨
       (env.ret Fn.strmReadLine (calls Fn.strmReadLine w + j) = RS_RET_OK ∧
          r = env.ret Fn.msgConstruct (calls Fn.msgConstruct w + j) ∧
          submitted w2 = submitted w ++ (List.range j).map (fun i =>
            ({ pszUxTradMsg := env.line (calls Fn.strmReadLine w + i),
               pszRawMsg := env.line (calls Fn.strmReadLine w + i),
               pszMSG := env.line (calls Fn.strmReadLine w + i),
               pszHOSTNAME := env.LocalHostName, pszTAG := pThis.pszTag,
               iFacility := pThis.iFacility, iSeverity := pThis.iSeverity,
               bParseHOSTNAME := 0,
               tTIMESTAMP := env.now (calls Fn.getCurrTime w + i) } : msg_t))) ∨
       (env.ret Fn.strmReadLine (calls Fn.strmReadLine w + j) = RS_RET_OK ∧
          env.ret Fn.msgConstruct (calls Fn.msgConstruct w + j) = RS_RET_OK ∧
          r = env.ret Fn.submitMsg (calls Fn.submitMsg w + j) ∧
          submitted w2 = submitted w ++ (List.range (j + 1)).map (fun i =>
            ({ pszUxTradMsg := env.line (calls Fn.strmReadLine w + i),
               pszRawMsg := env.line (calls Fn.strmReadLine w + i),
               pszMSG := env.line (calls Fn.strmReadLine w + i),
               pszHOSTNAME := env.LocalHostName, pszTAG := pThis.pszTag,
               iFacility := pThis.iFacility, iSeverity := pThis.iSeverity,
               bParseHOSTNAME := 0,
               tTIMESTAMP := env.now (calls Fn.getCurrTime w + i) } : msg_t)))) := by
  obtain ⟨j, hj, r, w2, hrun, hrest⟩ := pollFile_loop_stops env pThis k w hfin
  refine ⟨j, hj, r, w2, fun fuel hf => ?_, hrest⟩
  unfold pollFile
  rw [hopen]
  dsimp only
  rw [hrun fuel hf]

theorem pollFile_forwards_lines_until_first_failure_witness :
    ∃ j, j ≤ 2 ∧ ∃ (r : rsRetVal) (w2 : World),
      (∀ fuel, j < fuel →
        pollFile (sampleEnv StatResult.ENOENT Fn.submitMsg 1) fuel
          { sampleMonitor with pStrm := some 1 } [] =
          Except.ok (r, { sampleMonitor with pStrm := some 1 }, w2)) ∧
      r ≠ RS_RET_OK ∧
      calls Fn.strmReadLine w2 = calls Fn.strmReadLine [] + j + 1 := by
  obtain ⟨j, hj, r, w2, h1, h2, _, h4, _⟩ :=
    pollFile_forwards_lines_until_first_failure (sampleEnv StatResult.ENOENT Fn.submitMsg 1)
      { sampleMonitor with pStrm := some 1 } 1 [] 2 rfl (by decide)
  exact ⟨j, hj, r, w2, h1, h2, h4⟩

end Imfile
